import Mathlib

/-!
Shallow embedding of the `lightyear` transport layer (WebSocket server,
WebSocket wasm client, WebTransport wasm client) from
`src/lightyear/src/transport/`.

The I/O side of each transport communicates with the simulation through
tokio mpsc channels.  A channel is modelled as the list of items it
currently holds, oldest first (tokio mpsc channels are FIFO), together
with a flag recording whether the other end has been dropped
(`closed`).  `try_recv` on an unbounded receiver returns the oldest item
when one is pending, `TryRecvError::Empty` when the queue is empty and a
sender is still alive, and `TryRecvError::Disconnected` when the queue
is empty and every sender has been dropped.  `UnboundedSender::send`
fails exactly when the receiving end has been dropped, and otherwise
appends to the queue with no capacity bound.

Rust functions that can panic (out-of-bounds slice indexing in
`buffer[..len].copy_from_slice(..)`) are embedded with an explicit
`panicked` outcome.
-/

namespace Lightyear

/-- Byte strings carried in datagrams; byte values are irrelevant to the
claims, so bytes are plain naturals. -/
abbrev Bytes := List Nat

/-- Model of `std::net::SocketAddr`: an IP (as a number) and a port. -/
structure SocketAddr where
  ip : Nat
  port : Nat
  deriving DecidableEq, Repr

/-- Modelled from the spec: `mtu_bytes` (1200).  The `MTU` constant is
defined in the transport module files, which are not under `src/`; the
receivers' fixed buffers are `[0; MTU]`. -/
def MTU : Nat := 1200

/-- Modelled from the spec: the placeholder constant `LOCAL_SOCKET` from
the transport module (not under `src/`); its exact value is immaterial
to the claims, which only require that it is one fixed address. -/
def LOCAL_SOCKET : SocketAddr := ⟨0, 0⟩

/-- Error values produced by the transport code; the source wraps
formatted `std::io::Error` strings, whose text is irrelevant here. -/
inductive Error where
  /-- `Error::WebSocket(..)` as built in the websocket server code. -/
  | webSocket
  /-- a bare `std::io::Error::other(..).into()` as built in the clients. -/
  | io
  deriving DecidableEq, Repr

/-- Outcome of running a fallible Rust function: a returned `Ok` value,
a returned `Err`, or a panic (unreachable only if the code is safe). -/
inductive Outcome (α : Type) where
  | ok (a : α)
  | err (e : Error)
  | panicked
  deriving DecidableEq, Repr

/-- Whether an outcome is a returned `Err`. -/
def Outcome.isErr : Outcome α → Bool
  | .err _ => true
  | _ => false

/-- Model of `tokio::sync::mpsc::error::TryRecvError`. -/
inductive TryRecvError where
  | empty
  | disconnected
  deriving DecidableEq, Repr

/-- Model of `UnboundedReceiver::try_recv`: pop the oldest pending item;
on an empty queue report `Empty`, or `Disconnected` when every sender
has been dropped. -/
def tryRecv (queue : List α) (closed : Bool) :
    Except TryRecvError α × List α :=
  match queue with
  | x :: rest => (.ok x, rest)
  | [] => (.error (if closed then .disconnected else .empty), [])

/-- Model of `tokio_tungstenite::tungstenite::Message`. -/
inductive WsMessage where
  | binary (data : Bytes)
  | text (s : String)
  | ping (data : Bytes)
  | pong (data : Bytes)
  | close
  | frame
  deriving DecidableEq, Repr

/-- Length of the payload a binary message would copy into the receive
buffer (non-binary messages copy nothing). -/
def WsMessage.binarySize : WsMessage → Nat
  | .binary data => data.length
  | _ => 0

/-- Result of `buffer[..len].copy_from_slice(&buf)` on a fixed buffer:
the prefix of length `buf.length` is overwritten, the rest kept.  The
caller must separately check `buf.length ≤ buffer.length`; indexing
`buffer[..len]` with `len > buffer.length` panics. -/
def copyIntoPrefix (buffer buf : Bytes) : Bytes :=
  buf ++ buffer.drop buf.length

/-! ### WebSocket server (`src/lightyear/src/transport/websocket/server.rs`) -/

/-- State of `WebSocketServerSocketReceiver`: the fixed `[0; MTU]`
buffer, the server address, and the `serverbound_rx` end of the
unbounded `(SocketAddr, Message)` channel fed in arrival order by the
per-connection read tasks. -/
structure WebSocketServerSocketReceiver where
  buffer : Bytes
  server_addr : SocketAddr
  serverbound_rx : List (SocketAddr × WsMessage)
  serverbound_closed : Bool
  deriving DecidableEq, Repr

/-- `WebSocketServerSocketReceiver::recv`: `try_recv`; a binary message
is copied into `buffer[..len]` (panicking when `len` exceeds the buffer
length) and `(buffer[..len], addr)` is returned; `Close` and every other
frame kind yield `Ok(None)`; `Empty` yields `Ok(None)`; `Disconnected`
yields `Err(Error::WebSocket(..))`. -/
def wsServerRecv (r : WebSocketServerSocketReceiver) :
    Outcome (Option (Bytes × SocketAddr)) × WebSocketServerSocketReceiver :=
  match tryRecv r.serverbound_rx r.serverbound_closed with
  | (.ok (addr, msg), rest) =>
    match msg with
    | .binary buf =>
      if buf.length ≤ r.buffer.length then
        let buffer := copyIntoPrefix r.buffer buf
        (.ok (some (buffer.take buf.length, addr)),
          { r with buffer := buffer, serverbound_rx := rest })
      else
        (.panicked, { r with serverbound_rx := rest })
    | .close => (.ok none, { r with serverbound_rx := rest })
    | _ => (.ok none, { r with serverbound_rx := rest })
  | (.error e, rest) =>
    if e = .empty then (.ok none, { r with serverbound_rx := rest })
    else (.err .webSocket, { r with serverbound_rx := rest })

/-- One clientbound unbounded channel of the server: the pending
messages (oldest first) and whether the receiving task has dropped its
end. -/
structure ClientboundChannel where
  queue : List WsMessage
  closed : Bool
  deriving DecidableEq, Repr

/-- State of `WebSocketServerSocketSender`: the shared
`addr_to_clientbound_tx` map from client address to that client's
clientbound channel. -/
structure WebSocketServerSocketSender where
  server_addr : SocketAddr
  addr_to_clientbound_tx : SocketAddr → Option ClientboundChannel

/-- `WebSocketServerSocketSender::send`: look up the address in the map;
when a channel exists, `send(Message::Binary(payload))` on it, failing
(`Error::WebSocket`) exactly when its receiver was dropped; when no
channel exists, return `Ok(())` without enqueueing anything (the source
comments that a missing channel means the connection was closed). -/
def wsServerSend (s : WebSocketServerSocketSender) (payload : Bytes)
    (address : SocketAddr) : Outcome Unit × WebSocketServerSocketSender :=
  match s.addr_to_clientbound_tx address with
  | some chan =>
    if chan.closed then (.err .webSocket, s)
    else
      let sent : ClientboundChannel :=
        { chan with queue := chan.queue ++ [.binary payload] }
      let txMap := fun a =>
        if a = address then some sent else s.addr_to_clientbound_tx a
      (.ok (), { s with addr_to_clientbound_tx := txMap })
  | none => (.ok (), s)

/-! ### WebSocket wasm client
(`src/lightyear/src/transport/websocket/client_wasm.rs`) -/

/-- State of `WebSocketClientSocketSender`: the `serverbound_tx` end of
the unbounded `Vec<u8>` channel drained by the websocket I/O task.  The
channel created by `connect` is unbounded: the queue is a bare list with
no capacity field. -/
structure WebSocketClientSocketSender where
  serverbound_tx : List Bytes
  serverbound_closed : Bool
  deriving DecidableEq, Repr

/-- `WebSocketClientSocketSender::send`: `serverbound_tx.send(payload.to_vec())`,
which appends unconditionally (no capacity check) and fails exactly when
the receiving task dropped its end.  The `address` argument is unused by
the source. -/
def wsClientSend (s : WebSocketClientSocketSender) (payload : Bytes)
    (address : SocketAddr) : Outcome Unit × WebSocketClientSocketSender :=
  if s.serverbound_closed then (.err .io, s)
  else (.ok (), { s with serverbound_tx := s.serverbound_tx ++ [payload] })

/-- State of `WebSocketClientSocketReceiver`: the fixed `[0; MTU]`
buffer, the configured server address, and the `clientbound_rx` end of
the unbounded `Vec<u8>` channel fed in arrival order by the `onmessage`
callback. -/
structure WebSocketClientSocketReceiver where
  buffer : Bytes
  server_addr : SocketAddr
  clientbound_rx : List Bytes
  clientbound_closed : Bool
  deriving DecidableEq, Repr

/-- `WebSocketClientSocketReceiver::recv`: `try_recv`; a pending message
is copied into `buffer[..len]` (panicking when `len` exceeds the buffer
length) and `(buffer[..len], server_addr)` is returned; `Empty` yields
`Ok(None)`; `Disconnected` yields `Err(..)`. -/
def wsClientRecv (r : WebSocketClientSocketReceiver) :
    Outcome (Option (Bytes × SocketAddr)) × WebSocketClientSocketReceiver :=
  match tryRecv r.clientbound_rx r.clientbound_closed with
  | (.ok msg, rest) =>
    if msg.length ≤ r.buffer.length then
      let buffer := copyIntoPrefix r.buffer msg
      (.ok (some (buffer.take msg.length, r.server_addr)),
        { r with buffer := buffer, clientbound_rx := rest })
    else
      (.panicked, { r with clientbound_rx := rest })
  | (.error e, rest) =>
    if e = .empty then (.ok none, { r with clientbound_rx := rest })
    else (.err .io, { r with clientbound_rx := rest })

/-- Model of the bounded close channel `mpsc::channel(1)`: pending
sentinels (at most `capacity`) and whether the listening task dropped
its end. -/
structure CloseChannel where
  capacity : Nat
  queue : List Unit
  closed : Bool
  deriving DecidableEq, Repr

/-- Outcome of `mpsc::Sender::blocking_send` on the close channel: the
sentinel is enqueued, or the call blocks because the bounded channel is
full, or it fails because the receiver was dropped. -/
inductive BlockingSendOutcome where
  | sent
  | blocked
  | failed
  deriving DecidableEq, Repr

/-- `close_sender.blocking_send(())` as used by the close function that
`split` returns: errors when the listener dropped the channel, enqueues
when there is room, and otherwise blocks waiting for room. -/
def blockingSendClose (c : CloseChannel) :
    BlockingSendOutcome × CloseChannel :=
  if c.closed then (.failed, c)
  else if c.queue.length < c.capacity then
    (.sent, { c with queue := c.queue ++ [()] })
  else (.blocked, c)

/-- State of `WebSocketClientSocket` as returned by
`WebSocketClientSocketBuilder::connect`: the sender and receiver halves
and the capacity-1 close channel. -/
structure WebSocketClientSocket where
  sender : WebSocketClientSocketSender
  receiver : WebSocketClientSocketReceiver
  close_sender : CloseChannel
  deriving DecidableEq, Repr

/-- `Transport::local_addr` for `WebSocketClientSocket`: always the
placeholder `LOCAL_SOCKET`, ignoring the socket's state. -/
def WebSocketClientSocket.local_addr (_ : WebSocketClientSocket) : SocketAddr :=
  LOCAL_SOCKET

/-- `WebSocketClientSocketBuilder`: the configured server address. -/
structure WebSocketClientSocketBuilder where
  server_addr : SocketAddr
  deriving DecidableEq, Repr

/-- `WebSocketClientSocketBuilder::connect`: creates the unbounded
serverbound and clientbound channels and the capacity-1 close channel,
and returns the socket (the browser-side callbacks and tasks only feed
or drain these queues). -/
def WebSocketClientSocketBuilder.connect (b : WebSocketClientSocketBuilder) :
    WebSocketClientSocket :=
  { sender := { serverbound_tx := [], serverbound_closed := false }
  , receiver :=
      { buffer := List.replicate MTU 0
      , server_addr := b.server_addr
      , clientbound_rx := []
      , clientbound_closed := false }
  , close_sender := { capacity := 1, queue := [], closed := false } }

/-! ### WebTransport wasm client
(`src/lightyear/src/transport/webtransport/client_wasm.rs`) -/

/-- State of `WebTransportClientPacketSender`: the `to_server_sender`
end of the unbounded `Box<[u8]>` channel drained by the send-datagram
task.  The source marks the missing bound with a TODO ("this can exhaust
all available memory"). -/
structure WebTransportClientPacketSender where
  to_server_sender : List Bytes
  to_server_closed : Bool
  deriving DecidableEq, Repr

/-- `WebTransportClientPacketSender::send`: box the payload and
`to_server_sender.send(data)`, which appends unconditionally (no
capacity check) and fails exactly when the receiving task dropped its
end.  The `address` argument is unused by the source. -/
def wtClientSend (s : WebTransportClientPacketSender) (payload : Bytes)
    (address : SocketAddr) : Outcome Unit × WebTransportClientPacketSender :=
  if s.to_server_closed then (.err .io, s)
  else (.ok (), { s with to_server_sender := s.to_server_sender ++ [payload] })

/-- State of `WebTransportClientPacketReceiver`: the configured server
address, the `from_server_receiver` end of the unbounded channel fed in
arrival order by the receive-datagram task, and the fixed `[0; MTU]`
buffer. -/
structure WebTransportClientPacketReceiver where
  server_addr : SocketAddr
  from_server_receiver : List Bytes
  from_server_closed : Bool
  buffer : Bytes
  deriving DecidableEq, Repr

/-- `WebTransportClientPacketReceiver::recv`: `try_recv`; a pending
datagram is copied into `buffer[..len]` (panicking when `len` exceeds
the buffer length) and `(buffer[..len], server_addr)` is returned;
`Empty` yields `Ok(None)`; `Disconnected` yields `Err(..)`. -/
def wtClientRecv (r : WebTransportClientPacketReceiver) :
    Outcome (Option (Bytes × SocketAddr)) × WebTransportClientPacketReceiver :=
  match tryRecv r.from_server_receiver r.from_server_closed with
  | (.ok datagram, rest) =>
    if datagram.length ≤ r.buffer.length then
      let buffer := copyIntoPrefix r.buffer datagram
      (.ok (some (buffer.take datagram.length, r.server_addr)),
        { r with buffer := buffer, from_server_receiver := rest })
    else
      (.panicked, { r with from_server_receiver := rest })
  | (.error e, rest) =>
    if e = .empty then (.ok none, { r with from_server_receiver := rest })
    else (.err .io, { r with from_server_receiver := rest })

/-- State of `WebTransportClientSocket` as returned by
`WebTransportClientSocketBuilder::connect`. -/
structure WebTransportClientSocket where
  local_addr : SocketAddr
  sender : WebTransportClientPacketSender
  receiver : WebTransportClientPacketReceiver
  close_sender : CloseChannel
  deriving DecidableEq, Repr

/-- `WebTransportClientSocketBuilder`: configured client and server
addresses and the certificate digest. -/
structure WebTransportClientSocketBuilder where
  client_addr : SocketAddr
  server_addr : SocketAddr
  certificate_digest : String
  deriving DecidableEq, Repr

/-- `WebTransportClientSocketBuilder::connect`: creates the unbounded
to-server and from-server channels and the capacity-1 close channel,
spawns the I/O tasks, and returns the socket with `local_addr` set to
the configured `client_addr` (no socket is actually bound to it). -/
def WebTransportClientSocketBuilder.connect
    (b : WebTransportClientSocketBuilder) : WebTransportClientSocket :=
  { local_addr := b.client_addr
  , sender := { to_server_sender := [], to_server_closed := false }
  , receiver :=
      { server_addr := b.server_addr
      , from_server_receiver := []
      , from_server_closed := false
      , buffer := List.replicate MTU 0 }
  , close_sender := { capacity := 1, queue := [], closed := false } }

/-! ### WebTransport I/O task loops

The claims about cancellation concern the three tasks spawned by
`WebTransportClientSocketBuilder::connect`.  Each loop is embedded as a
step function over the events its `await` points can yield; an `exited`
flag records whether the loop has been left. -/

/-- Events observable by the receive-datagram task loop: a completed
`connection.receive_datagram()` with a datagram, or with an error. -/
inductive WtRecvEvent where
  | datagram (data : Bytes)
  | ioFailure
  deriving DecidableEq, Repr

/-- State of the receive-datagram task: the queue it feeds and whether
its loop has exited. -/
structure WtRecvTaskState where
  from_server_queue : List Bytes
  exited : Bool
  deriving DecidableEq, Repr

/-- One iteration of the receive-datagram task's `loop`: on a datagram,
forward it on `from_server_sender`; on an error, log it; in both cases
the loop continues — the body contains no `break` or `return`, and it
never polls the close channel. -/
def wtRecvTaskStep (s : WtRecvTaskState) (e : WtRecvEvent) : WtRecvTaskState :=
  if s.exited then s
  else
    match e with
    | .datagram data =>
        { s with from_server_queue := s.from_server_queue ++ [data] }
    | .ioFailure => s

/-- Run the receive-datagram task over a sequence of events. -/
def wtRecvTaskRun (s : WtRecvTaskState) (es : List WtRecvEvent) :
    WtRecvTaskState :=
  es.foldl wtRecvTaskStep s

/-- State of the send-datagram task: the datagrams handed to
`connection.send_datagram` so far and whether its loop has exited. -/
structure WtSendTaskState where
  sent : List Bytes
  exited : Bool
  deriving DecidableEq, Repr

/-- One iteration of the send-datagram task's `loop`: `if let Some(msg)`
on `to_server_receiver.recv()` forwards the message (send errors are
logged); a `None` (channel closed) simply falls through and the loop
continues — the body contains no `break` or `return`, and it never polls
the close channel. -/
def wtSendTaskStep (s : WtSendTaskState) (e : Option Bytes) : WtSendTaskState :=
  if s.exited then s
  else
    match e with
    | some msg => { s with sent := s.sent ++ [msg] }
    | none => s

/-- Run the send-datagram task over a sequence of events. -/
def wtSendTaskRun (s : WtSendTaskState) (es : List (Option Bytes)) :
    WtSendTaskState :=
  es.foldl wtSendTaskStep s

/-- State of the close-listener task: whether the transport has been
closed and whether the task has exited. -/
structure WtCloseTaskState where
  transport_closed : Bool
  exited : Bool
  deriving DecidableEq, Repr

/-- The close-listener task: it awaits one `close_rx.recv()`; when a
sentinel (or channel closure) arrives it closes the transport and the
task ends. -/
def wtCloseTaskOnSignal (s : WtCloseTaskState) : WtCloseTaskState :=
  if s.exited then s else { transport_closed := true, exited := true }

/-! ## Claims -/

/-- C10: `local_addr()` on the wasm WebSocket client socket returns the
fixed placeholder `LOCAL_SOCKET` whatever the socket's state; on the
WebTransport client it returns exactly the `client_addr` the builder was
configured with. -/
theorem local_addr_constant :
    (∀ sock : WebSocketClientSocket, sock.local_addr = LOCAL_SOCKET) ∧
    (∀ b : WebTransportClientSocketBuilder,
      (WebTransportClientSocketBuilder.connect b).local_addr = b.client_addr) :=
  ⟨fun _ => rfl, fun _ => rfl⟩

/-- C9: client-side `send` is independent of its address argument, on
both the websocket and the webtransport wasm clients: the same payload
from the same sender state produces identical results for any two
addresses. -/
theorem client_send_ignores_address :
    (∀ (s : WebSocketClientSocketSender) (p : Bytes) (a1 a2 : SocketAddr),
      wsClientSend s p a1 = wsClientSend s p a2) ∧
    (∀ (s : WebTransportClientPacketSender) (p : Bytes) (a1 a2 : SocketAddr),
      wtClientSend s p a1 = wtClientSend s p a2) :=
  ⟨fun _ _ _ _ => rfl, fun _ _ _ _ => rfl⟩

/-- C8: when the oldest pending inbound item on the server websocket is
a non-binary frame, `recv` consumes it from the queue and returns
`Ok(None)`, leaving every other part of the receiver state unchanged —
no error, no counter, no disconnect. -/
theorem recv_nonbinary_consumed_ok_none
    (r : WebSocketServerSocketReceiver) (addr : SocketAddr) (msg : WsMessage)
    (rest : List (SocketAddr × WsMessage))
    (hq : r.serverbound_rx = (addr, msg) :: rest)
    (hmsg : ∀ data, msg ≠ .binary data) :
    wsServerRecv r = (.ok none, { r with serverbound_rx := rest }) := by
  cases msg with
  | binary data => exact absurd rfl (hmsg data)
  | text s => simp [wsServerRecv, tryRecv, hq]
  | ping data => simp [wsServerRecv, tryRecv, hq]
  | pong data => simp [wsServerRecv, tryRecv, hq]
  | close => simp [wsServerRecv, tryRecv, hq]
  | frame => simp [wsServerRecv, tryRecv, hq]

/-- Witness for C8: a queued `Ping` frame is consumed and `recv` returns
`Ok(None)`. -/
theorem recv_nonbinary_witness :
    wsServerRecv
      { buffer := List.replicate MTU 0, server_addr := ⟨1, 1⟩
      , serverbound_rx := [(⟨2, 2⟩, .ping [])], serverbound_closed := false }
      = (.ok none,
         { buffer := List.replicate MTU 0, server_addr := ⟨1, 1⟩
         , serverbound_rx := [], serverbound_closed := false }) :=
  recv_nonbinary_consumed_ok_none _ ⟨2, 2⟩ (.ping []) [] rfl
    (fun data h => WsMessage.noConfusion h)

/-- Counterexample to C3 as stated: an inbound queue with no pending
datagram does produce an error when the channel has been disconnected
(all sender handles dropped); `recv` then returns `Err`, not
`Ok(None)`. -/
theorem recv_empty_disconnected_errs :
    (wsServerRecv
      { buffer := List.replicate MTU 0, server_addr := ⟨0, 0⟩
      , serverbound_rx := [], serverbound_closed := true }).1
      = .err .webSocket := rfl

/-- C3 (amended): `recv` is non-blocking on all three transports — on an
empty inbound queue whose channel is still connected it returns
`Ok(None)`; only an empty and disconnected channel produces an error. -/
theorem recv_empty_connected_ok_none :
    (∀ r : WebSocketServerSocketReceiver,
      r.serverbound_rx = [] → r.serverbound_closed = false →
      (wsServerRecv r).1 = .ok none) ∧
    (∀ r : WebSocketClientSocketReceiver,
      r.clientbound_rx = [] → r.clientbound_closed = false →
      (wsClientRecv r).1 = .ok none) ∧
    (∀ r : WebTransportClientPacketReceiver,
      r.from_server_receiver = [] → r.from_server_closed = false →
      (wtClientRecv r).1 = .ok none) := by
  refine ⟨fun r hq hc => ?_, fun r hq hc => ?_, fun r hq hc => ?_⟩ <;>
    simp [wsServerRecv, wsClientRecv, wtClientRecv, tryRecv, hq, hc]

/-- Witness for C3: concrete empty, still-connected receivers on each
transport return `Ok(None)`. -/
theorem recv_empty_witness :
    (wsServerRecv
      { buffer := List.replicate MTU 0, server_addr := ⟨0, 0⟩
      , serverbound_rx := [], serverbound_closed := false }).1 = .ok none ∧
    (wsClientRecv
      { buffer := List.replicate MTU 0, server_addr := ⟨0, 0⟩
      , clientbound_rx := [], clientbound_closed := false }).1 = .ok none ∧
    (wtClientRecv
      { server_addr := ⟨0, 0⟩, from_server_receiver := []
      , from_server_closed := false, buffer := List.replicate MTU 0 }).1
      = .ok none :=
  ⟨recv_empty_connected_ok_none.1 _ rfl rfl,
   recv_empty_connected_ok_none.2.1 _ rfl rfl,
   recv_empty_connected_ok_none.2.2 _ rfl rfl⟩

/-- Counterexample to C5 as stated: a disconnected inbound channel that
still holds a pending datagram does not make `recv` return `Err`; the
pending datagram is returned with `Ok(Some(..))`. -/
theorem recv_disconnected_nonempty_ok :
    (wsServerRecv
      { buffer := List.replicate MTU 0, server_addr := ⟨0, 0⟩
      , serverbound_rx := [(⟨7, 7⟩, .binary [42])]
      , serverbound_closed := true }).1
      = .ok (some ([42], ⟨7, 7⟩)) := by
  simp only [wsServerRecv, tryRecv]
  rw [if_pos (by rw [List.length_replicate]; simp [MTU])]
  simp [copyIntoPrefix]

/-- C5 (amended): `recv` returns `Err` exactly when the inbound queue is
empty and the channel is disconnected; while datagrams are still
pending, `recv` does not error even on a disconnected channel.  Stated
for the two cited receivers (websocket server, webtransport client). -/
theorem recv_err_iff_empty_disconnected :
    (∀ r : WebSocketServerSocketReceiver,
      (wsServerRecv r).1.isErr = true ↔
        r.serverbound_rx = [] ∧ r.serverbound_closed = true) ∧
    (∀ r : WebTransportClientPacketReceiver,
      (wtClientRecv r).1.isErr = true ↔
        r.from_server_receiver = [] ∧ r.from_server_closed = true) := by
  constructor
  · intro r
    rcases hr : r.serverbound_rx with _ | ⟨⟨addr, msg⟩, rest⟩
    · cases hc : r.serverbound_closed <;>
        simp [wsServerRecv, tryRecv, hr, hc, Outcome.isErr]
    · cases msg with
      | binary data =>
        by_cases hlen : data.length ≤ r.buffer.length <;>
          simp [wsServerRecv, tryRecv, hr, hlen, Outcome.isErr]
      | text s => simp [wsServerRecv, tryRecv, hr, Outcome.isErr]
      | ping data => simp [wsServerRecv, tryRecv, hr, Outcome.isErr]
      | pong data => simp [wsServerRecv, tryRecv, hr, Outcome.isErr]
      | close => simp [wsServerRecv, tryRecv, hr, Outcome.isErr]
      | frame => simp [wsServerRecv, tryRecv, hr, Outcome.isErr]
  · intro r
    rcases hr : r.from_server_receiver with _ | ⟨datagram, rest⟩
    · cases hc : r.from_server_closed <;>
        simp [wtClientRecv, tryRecv, hr, hc, Outcome.isErr]
    · by_cases hlen : datagram.length ≤ r.buffer.length <;>
        simp [wtClientRecv, tryRecv, hr, hlen, Outcome.isErr]

/-- Counterexample to C1 as stated: nothing bounds the length of the
messages the read task places on the inbound queue, and a queued binary
message one byte longer than `MTU` makes the copy into the fixed
MTU-sized buffer out of bounds: `recv` panics. -/
theorem recv_oversized_datagram_panics :
    (wsServerRecv
      { buffer := List.replicate MTU 0, server_addr := ⟨0, 0⟩
      , serverbound_rx := [(⟨7, 7⟩, .binary (List.replicate (MTU + 1) 0))]
      , serverbound_closed := false }).1
      = .panicked := by
  simp only [wsServerRecv, tryRecv]
  rw [if_neg (by rw [List.length_replicate, List.length_replicate]; simp)]

/-- C1 (amended): `recv` never panics provided every binary message on
the inbound queue is at most `MTU` bytes long; the out-of-bounds branch
of the copy is unreachable exactly under that bound, which the code does
not itself enforce on enqueue.  Stated for the two cited receivers. -/
theorem recv_no_panic_of_mtu_bounded_queue :
    (∀ r : WebSocketServerSocketReceiver,
      r.buffer.length = MTU →
      (∀ p ∈ r.serverbound_rx, (p.2).binarySize ≤ MTU) →
      (wsServerRecv r).1 ≠ .panicked) ∧
    (∀ r : WebSocketClientSocketReceiver,
      r.buffer.length = MTU →
      (∀ m ∈ r.clientbound_rx, m.length ≤ MTU) →
      (wsClientRecv r).1 ≠ .panicked) := by
  constructor
  · intro r hbuf hbound
    rcases hr : r.serverbound_rx with _ | ⟨⟨addr, msg⟩, rest⟩
    · cases hc : r.serverbound_closed <;>
        simp [wsServerRecv, tryRecv, hr, hc]
    · cases msg with
      | binary data =>
        have hd : data.length ≤ r.buffer.length := by
          rw [hbuf]
          simpa [WsMessage.binarySize] using
            hbound (addr, .binary data) (by rw [hr]; exact List.mem_cons_self _ _)
        simp [wsServerRecv, tryRecv, hr, hd]
      | text s => simp [wsServerRecv, tryRecv, hr]
      | ping data => simp [wsServerRecv, tryRecv, hr]
      | pong data => simp [wsServerRecv, tryRecv, hr]
      | close => simp [wsServerRecv, tryRecv, hr]
      | frame => simp [wsServerRecv, tryRecv, hr]
  · intro r hbuf hbound
    rcases hr : r.clientbound_rx with _ | ⟨msg, rest⟩
    · cases hc : r.clientbound_closed <;>
        simp [wsClientRecv, tryRecv, hr, hc]
    · have hd : msg.length ≤ r.buffer.length := by
        rw [hbuf]
        exact hbound msg (by rw [hr]; exact List.mem_cons_self _ _)
      simp [wsClientRecv, tryRecv, hr, hd]

/-- Witness for C1 (amended): a queued 3-byte binary message is received
without panicking. -/
theorem recv_no_panic_witness :
    (wsServerRecv
      { buffer := List.replicate MTU 0, server_addr := ⟨0, 0⟩
      , serverbound_rx := [(⟨7, 7⟩, .binary [1, 2, 3])]
      , serverbound_closed := false }).1 ≠ .panicked :=
  recv_no_panic_of_mtu_bounded_queue.1 _ (by rw [List.length_replicate])
    (by intro p hp; simp at hp; rw [hp]; simp [WsMessage.binarySize, MTU])

/-- Counterexample to C2 as stated: sending to an address with no
registered clientbound channel returns `Ok(())` while leaving the sender
state unchanged — the payload is discarded without being enqueued
anywhere, yet success is reported. -/
theorem send_unknown_addr_ok_discards :
    wsServerSend
      { server_addr := ⟨0, 0⟩, addr_to_clientbound_tx := fun _ => none }
      [1, 2, 3] ⟨9, 9⟩
      = (.ok (),
         { server_addr := ⟨0, 0⟩, addr_to_clientbound_tx := fun _ => none }) :=
  rfl

/-- C2 (amended): for an address with a registered, still-open
clientbound channel, a send that returns `Ok` has enqueued the payload
as a binary message on that address's channel; only for an address with
no registered channel (treated by the source as an already-closed
connection) does `send` return `Ok` while discarding the payload. -/
theorem send_ok_enqueues_for_registered_addr :
    (∀ (s : WebSocketServerSocketSender) (payload : Bytes)
        (address : SocketAddr) (chan : ClientboundChannel),
      s.addr_to_clientbound_tx address = some chan → chan.closed = false →
      (wsServerSend s payload address).1 = .ok () ∧
      (wsServerSend s payload address).2.addr_to_clientbound_tx address =
        some { chan with queue := chan.queue ++ [.binary payload] }) ∧
    (∀ (s : WebSocketServerSocketSender) (payload : Bytes)
        (address : SocketAddr),
      s.addr_to_clientbound_tx address = none →
      wsServerSend s payload address = (.ok (), s)) := by
  constructor
  · intro s payload address chan hfound hopen
    simp [wsServerSend, hfound, hopen]
  · intro s payload address hnone
    simp [wsServerSend, hnone]

/-- Witness for C2 (amended): a payload sent to a registered open
channel is reported `Ok` and lands at the back of that channel's
queue. -/
theorem send_enqueue_witness :
    (wsServerSend
      { server_addr := ⟨0, 0⟩
      , addr_to_clientbound_tx := fun a =>
          if a = ⟨1, 1⟩ then some { queue := [], closed := false } else none }
      [9] ⟨1, 1⟩).1 = .ok () ∧
    (wsServerSend
      { server_addr := ⟨0, 0⟩
      , addr_to_clientbound_tx := fun a =>
          if a = ⟨1, 1⟩ then some { queue := [], closed := false } else none }
      [9] ⟨1, 1⟩).2.addr_to_clientbound_tx ⟨1, 1⟩
      = some { queue := [.binary [9]], closed := false } :=
  send_ok_enqueues_for_registered_addr.1 _ [9] ⟨1, 1⟩
    { queue := [], closed := false } (by simp) rfl

/-- Counterexample to C4 as stated: a non-empty inbound queue whose
oldest item is a text frame does not yield the oldest pending datagram;
`recv` returns `Ok(None)` even though a binary datagram is pending
behind the text frame. -/
theorem recv_nonbinary_head_skips_datagram :
    (wsServerRecv
      { buffer := List.replicate MTU 0, server_addr := ⟨0, 0⟩
      , serverbound_rx := [(⟨7, 7⟩, .text "hi"), (⟨7, 7⟩, .binary [42])]
      , serverbound_closed := false }).1
      = .ok none :=
  rfl

/-- C4 (amended): when the oldest queued item is a binary message no
longer than the buffer, `recv` pops it in FIFO order and returns exactly
its bytes, paired with the originating client's address on the server
socket and with the configured server address on the client socket. -/
theorem recv_returns_oldest_datagram :
    (∀ (r : WebSocketServerSocketReceiver) (addr : SocketAddr) (buf : Bytes)
        (rest : List (SocketAddr × WsMessage)),
      r.serverbound_rx = (addr, .binary buf) :: rest →
      buf.length ≤ r.buffer.length →
      (wsServerRecv r).1 = .ok (some (buf, addr)) ∧
      (wsServerRecv r).2.serverbound_rx = rest) ∧
    (∀ (r : WebSocketClientSocketReceiver) (msg : Bytes) (rest : List Bytes),
      r.clientbound_rx = msg :: rest →
      msg.length ≤ r.buffer.length →
      (wsClientRecv r).1 = .ok (some (msg, r.server_addr)) ∧
      (wsClientRecv r).2.clientbound_rx = rest) := by
  constructor
  · intro r addr buf rest hq hlen
    simp [wsServerRecv, tryRecv, hq, hlen, copyIntoPrefix]
  · intro r msg rest hq hlen
    simp [wsClientRecv, tryRecv, hq, hlen, copyIntoPrefix]

/-- Witness for C4 (amended): with two datagrams pending, `recv` returns
the older one's exact bytes and its sender's address, and leaves the
younger one queued. -/
theorem recv_fifo_witness :
    (wsServerRecv
      { buffer := List.replicate MTU 0, server_addr := ⟨0, 0⟩
      , serverbound_rx := [(⟨7, 7⟩, .binary [7, 8]), (⟨9, 9⟩, .binary [5])]
      , serverbound_closed := false }).1
      = .ok (some ([7, 8], ⟨7, 7⟩)) ∧
    (wsServerRecv
      { buffer := List.replicate MTU 0, server_addr := ⟨0, 0⟩
      , serverbound_rx := [(⟨7, 7⟩, .binary [7, 8]), (⟨9, 9⟩, .binary [5])]
      , serverbound_closed := false }).2.serverbound_rx
      = [(⟨9, 9⟩, .binary [5])] :=
  recv_returns_oldest_datagram.1 _ ⟨7, 7⟩ [7, 8] [(⟨9, 9⟩, .binary [5])] rfl
    (by rw [List.length_replicate]; simp [MTU])

/-- C6 (against the claim): the outbound client queues created by
`connect` are tokio unbounded channels — `send` on an open channel
always returns `Ok` and appends, whatever the number of already queued
packets; no capacity is ever consulted and no `WouldBlock` is ever
reported.  Stated for both wasm client senders. -/
theorem send_unbounded_never_backpressure :
    (∀ (s : WebSocketClientSocketSender) (payload : Bytes) (a : SocketAddr),
      s.serverbound_closed = false →
      (wsClientSend s payload a).1 = .ok () ∧
      (wsClientSend s payload a).2.serverbound_tx.length
        = s.serverbound_tx.length + 1) ∧
    (∀ (s : WebTransportClientPacketSender) (payload : Bytes) (a : SocketAddr),
      s.to_server_closed = false →
      (wtClientSend s payload a).1 = .ok () ∧
      (wtClientSend s payload a).2.to_server_sender.length
        = s.to_server_sender.length + 1) := by
  constructor
  · intro s payload a hopen
    simp [wsClientSend, hopen]
  · intro s payload a hopen
    simp [wtClientSend, hopen]

/-- Witness for C6: a websocket client sender already holding 5000
queued packets still accepts one more with `Ok` — far past any
per-packet bound. -/
theorem send_unbounded_witness :
    (wsClientSend
      { serverbound_tx := List.replicate 5000 [], serverbound_closed := false }
      [0] ⟨0, 0⟩).1 = .ok () ∧
    (wsClientSend
      { serverbound_tx := List.replicate 5000 [], serverbound_closed := false }
      [0] ⟨0, 0⟩).2.serverbound_tx.length = 5001 := by
  have h := send_unbounded_never_backpressure.1
    { serverbound_tx := List.replicate 5000 [], serverbound_closed := false }
    [0] ⟨0, 0⟩ rfl
  exact ⟨h.1, by rw [h.2, List.length_replicate]⟩

/-- C7 (against the claim): on the webtransport client, the
receive-datagram and send-datagram task loops have no exit path at all —
their `exited` status is invariant under any sequence of observable
events (the close sentinel is not among them; neither loop polls the
close channel) — while the dedicated close-listener task does exit when
it observes the sentinel. -/
theorem wt_io_tasks_never_exit :
    (∀ (s : WtRecvTaskState) (es : List WtRecvEvent),
      (wtRecvTaskRun s es).exited = s.exited) ∧
    (∀ (s : WtSendTaskState) (es : List (Option Bytes)),
      (wtSendTaskRun s es).exited = s.exited) ∧
    (∀ s : WtCloseTaskState, (wtCloseTaskOnSignal s).exited = true) := by
  have hrecv : ∀ (t : WtRecvTaskState) (e : WtRecvEvent),
      (wtRecvTaskStep t e).exited = t.exited := by
    intro t e
    unfold wtRecvTaskStep
    split
    · rfl
    · cases e <;> rfl
  have hsend : ∀ (t : WtSendTaskState) (e : Option Bytes),
      (wtSendTaskStep t e).exited = t.exited := by
    intro t e
    unfold wtSendTaskStep
    split
    · rfl
    · cases e <;> rfl
  refine ⟨?_, ?_, ?_⟩
  · intro s es
    induction es generalizing s with
    | nil => rfl
    | cons e es ih =>
      calc (wtRecvTaskRun s (e :: es)).exited
          = (wtRecvTaskRun (wtRecvTaskStep s e) es).exited := rfl
        _ = (wtRecvTaskStep s e).exited := ih _
        _ = s.exited := hrecv s e
  · intro s es
    induction es generalizing s with
    | nil => rfl
    | cons e es ih =>
      calc (wtSendTaskRun s (e :: es)).exited
          = (wtSendTaskRun (wtSendTaskStep s e) es).exited := rfl
        _ = (wtSendTaskStep s e).exited := ih _
        _ = s.exited := hsend s e
  · intro s
    unfold wtCloseTaskOnSignal
    split
    · next h => exact h
    · rfl

end Lightyear
